import Mathlib

/-!
Shallow embedding of the data-normalization logic of the NASA Data
Visualization App (streamlit_app.py) together with proofs about it.

Modelling conventions:
 - JSON numbers are modelled as rationals (the normalizers only copy them;
   no float arithmetic is performed in the normalization code verified here).
 - Python dictionaries whose key set matters are modelled as association
   lists; dict.get with a default is modelled by Option.getD.
 - Code that can raise an uncaught exception (`xs[0]` on an empty list,
   `int(s)` on a non-numeric string) is modelled as Option-valued: `none`
   is the exceptional (crashing) outcome of the surrounding loop.
-/

namespace NasaApp

/-! ## Near Earth Objects (streamlit_app.py lines 154-170) -/

/-- One entry of a source object field close_approach_data, with the nested
fields the normalization loop reads. Numeric strings that the code passes
through Python float() are modelled directly as rationals. -/
structure CloseApproach where
  close_approach_date : String
  miss_distance_kilometers : ℚ
  relative_velocity_kilometers_per_hour : ℚ
deriving Repr, DecidableEq

/-- One near-earth-object descriptor from the feed, with the fields read by
the loop at lines 159-169. The nested path
estimated_diameter.kilometers.estimated_diameter_min is flattened into the
field name. -/
structure NeoObj where
  id : String
  name : String
  estimated_diameter_kilometers_min : ℚ
  estimated_diameter_kilometers_max : ℚ
  is_potentially_hazardous_asteroid : Bool
  close_approach_data : List CloseApproach
deriving Repr, DecidableEq

/-- The flat record (dict neo_info, lines 159-169) appended to neo_data for
each source object. -/
structure NeoRecord where
  id : String
  name : String
  date : String
  diameter_min_km : ℚ
  diameter_max_km : ℚ
  is_hazardous : Bool
  close_approach_date : String
  miss_distance_km : ℚ
  relative_velocity_kph : ℚ
deriving Repr, DecidableEq

/-- The decoded feed JSON: the field near_earth_objects maps ISO date strings
to arrays of descriptors. A Python dict in insertion order is an association
list. -/
structure NeoFeed where
  near_earth_objects : List (String × List NeoObj)
deriving Repr, DecidableEq

/-- Body of the inner loop (lines 159-169): build neo_info from one source
object. Indexing close_approach_data[0] raises IndexError when the array is
empty, which aborts the whole page render: modelled as `none`. -/
def normalizeNeoObj (date : String) (neo : NeoObj) : Option NeoRecord :=
  match neo.close_approach_data with
  | [] => none
  | ca :: _ =>
    some
      { id := neo.id
        name := neo.name
        date := date
        diameter_min_km := neo.estimated_diameter_kilometers_min
        diameter_max_km := neo.estimated_diameter_kilometers_max
        is_hazardous := neo.is_potentially_hazardous_asteroid
        close_approach_date := ca.close_approach_date
        miss_distance_km := ca.miss_distance_kilometers
        relative_velocity_kph := ca.relative_velocity_kilometers_per_hour }

/-- The (date, neo) pairs visited by the two nested loops at lines 157-158,
in iteration order. -/
def neoEntries (feed : NeoFeed) : List (String × NeoObj) :=
  feed.near_earth_objects.flatMap (fun p => p.2.map (fun n => (p.1, n)))

/-- Option-valued map over a list: the first `none` aborts the whole
computation, matching an uncaught Python exception thrown mid-loop. -/
def mapMOpt (f : α → Option β) : List α → Option (List β)
  | [] => some []
  | x :: xs =>
    match f x, mapMOpt f xs with
    | some y, some ys => some (y :: ys)
    | _, _ => none

/-- The full NEO normalization loop (lines 156-170): flatten the date map and
build one record per source object; any IndexError aborts with no data. -/
def neoNormalize (feed : NeoFeed) : Option (List NeoRecord) :=
  mapMOpt (fun p => normalizeNeoObj p.1 p.2) (neoEntries feed)

/-- Total number of object-entries across all date keys of the feed. -/
def totalEntries (feed : NeoFeed) : Nat :=
  (feed.near_earth_objects.map (fun p => p.2.length)).sum

/-- Schema validity of a decoded NEO feed as guaranteed by the upstream API:
every object carries at least one close-approach entry for the queried
window, and its estimated diameter bounds are ordered. -/
def ValidNeoFeed (feed : NeoFeed) : Prop :=
  ∀ p ∈ neoEntries feed,
    p.2.close_approach_data ≠ [] ∧
      p.2.estimated_diameter_kilometers_min ≤ p.2.estimated_diameter_kilometers_max

instance (feed : NeoFeed) : Decidable (ValidNeoFeed feed) := by
  unfold ValidNeoFeed; infer_instance

/-- Helper: when every element maps to a value satisfying P, mapMOpt succeeds
with one output per input, all satisfying P. -/
theorem mapMOpt_total (f : α → Option β) (P : β → Prop) :
    ∀ {xs : List α}, (∀ x ∈ xs, ∃ y, f x = some y ∧ P y) →
      ∃ l, mapMOpt f xs = some l ∧ l.length = xs.length ∧ ∀ y ∈ l, P y
  | [], _ => ⟨[], rfl, rfl, by simp⟩
  | x :: xs, h => by
    obtain ⟨y, hy, hPy⟩ := h x (List.mem_cons_self x xs)
    obtain ⟨l, hl, hlen, hall⟩ :=
      mapMOpt_total f P (fun a ha => h a (List.mem_cons_of_mem _ ha))
    refine ⟨y :: l, ?_, by simp [hlen], ?_⟩
    · simp [mapMOpt, hy, hl]
    · intro z hz
      rcases List.mem_cons.mp hz with hz | hz
      · exact hz ▸ hPy
      · exact hall z hz

/-- Helper: a single failing element makes mapMOpt fail. -/
theorem mapMOpt_none {f : α → Option β} :
    ∀ {xs : List α}, (∃ x ∈ xs, f x = none) → mapMOpt f xs = none
  | x :: xs, h => by
    obtain ⟨z, hz, hfz⟩ := h
    rcases List.mem_cons.mp hz with hz | hz
    · subst hz
      simp [mapMOpt, hfz]
    · have := mapMOpt_none ⟨z, hz, hfz⟩
      unfold mapMOpt
      rw [this]
      rcases f x with _ | y <;> rfl

/-- Helper: the entry count of a feed is the length of its flattened entry
list. -/
theorem totalEntries_eq_length (feed : NeoFeed) :
    totalEntries feed = (neoEntries feed).length := by
  unfold totalEntries neoEntries
  induction feed.near_earth_objects with
  | nil => rfl
  | cons p ps ih => simp [ih]

/-- Presentation-layer date clamp for the NEO request (lines 134-138): dates
are modelled as integer day numbers, so subtraction of dates is integer
subtraction of day counts and adding timedelta days is integer addition. -/
def clampNeoDates (start_date end_date : ℤ) : ℤ × ℤ :=
  let date_difference := end_date - start_date
  if date_difference > 7 then (start_date, start_date + 7) else (start_date, end_date)

/-- C5: a selected NEO date range wider than 7 days is clamped so the
effective end date is the start date plus exactly 7 days; a range of at most
7 days is passed through unchanged. -/
theorem neo_date_clamp (start_date end_date : ℤ) :
    (end_date - start_date > 7 →
        clampNeoDates start_date end_date = (start_date, start_date + 7)) ∧
      (end_date - start_date ≤ 7 →
        clampNeoDates start_date end_date = (start_date, end_date)) := by
  refine ⟨fun h => ?_, fun h => ?_⟩
  · simp only [clampNeoDates]
    rw [if_pos (by omega)]
  · simp only [clampNeoDates]
    rw [if_neg (by omega)]

/-- Witness for C5 at a 10-day range and at a 5-day range. -/
theorem neo_date_clamp_witness :
    clampNeoDates 0 10 = (0, 7) ∧ clampNeoDates 0 5 = (0, 5) :=
  ⟨(neo_date_clamp 0 10).1 (by decide), (neo_date_clamp 0 5).2 (by decide)⟩

/-- C2: for every valid NEO feed whose date map holds N object-entries in
total, normalization succeeds and produces exactly N flat records, each
satisfying diameter_min_km ≤ diameter_max_km. -/
theorem neo_normalize_count_and_diameters (feed : NeoFeed) (hv : ValidNeoFeed feed) :
    ∃ l, neoNormalize feed = some l ∧ l.length = totalEntries feed ∧
      ∀ r ∈ l, r.diameter_min_km ≤ r.diameter_max_km := by
  obtain ⟨l, hl, hlen, hall⟩ :=
    mapMOpt_total (fun p : String × NeoObj => normalizeNeoObj p.1 p.2)
      (fun r => r.diameter_min_km ≤ r.diameter_max_km)
      (fun p hp => by
        obtain ⟨hne, hle⟩ := hv p hp
        match hca : p.2.close_approach_data with
        | [] => exact absurd hca hne
        | ca :: rest =>
          have hsome : normalizeNeoObj p.1 p.2 = some
              { id := p.2.id, name := p.2.name, date := p.1,
                diameter_min_km := p.2.estimated_diameter_kilometers_min,
                diameter_max_km := p.2.estimated_diameter_kilometers_max,
                is_hazardous := p.2.is_potentially_hazardous_asteroid,
                close_approach_date := ca.close_approach_date,
                miss_distance_km := ca.miss_distance_kilometers,
                relative_velocity_kph := ca.relative_velocity_kilometers_per_hour } := by
            unfold normalizeNeoObj
            rw [hca]
          exact ⟨_, hsome, hle⟩)
  exact ⟨l, hl, by rw [hlen, totalEntries_eq_length], hall⟩

/-- A concrete feed mirroring the end-to-end scenario of the design spec: two
objects on the first date key and one on the second. -/
def exampleNeoFeed : NeoFeed :=
  { near_earth_objects :=
      [("2024-01-01",
        [{ id := "1", name := "a", estimated_diameter_kilometers_min := 1,
           estimated_diameter_kilometers_max := 3,
           is_potentially_hazardous_asteroid := true,
           close_approach_data := [⟨"2024-01-01", 700000, 40000⟩] },
         { id := "2", name := "b", estimated_diameter_kilometers_min := 2,
           estimated_diameter_kilometers_max := 5,
           is_potentially_hazardous_asteroid := false,
           close_approach_data := [⟨"2024-01-01", 900000, 30000⟩] }]),
       ("2024-01-03",
        [{ id := "3", name := "c", estimated_diameter_kilometers_min := 1,
           estimated_diameter_kilometers_max := 4,
           is_potentially_hazardous_asteroid := false,
           close_approach_data := [⟨"2024-01-03", 100000, 55000⟩,
                                   ⟨"2024-01-05", 200000, 56000⟩] }])] }

/-- Witness for C2 on the concrete three-object feed. -/
theorem neo_normalize_count_witness :
    ∃ l, neoNormalize exampleNeoFeed = some l ∧ l.length = totalEntries exampleNeoFeed ∧
      ∀ r ∈ l, r.diameter_min_km ≤ r.diameter_max_km :=
  neo_normalize_count_and_diameters exampleNeoFeed (by decide)

/-- C6: the produced record takes its close-approach date, miss distance and
relative velocity from index 0 of the close-approach array, and replacing the
later entries by any others leaves the record unchanged. -/
theorem neo_first_approach_only (date : String) (neo : NeoObj) (ca : CloseApproach)
    (rest rest' : List CloseApproach) :
    (∃ r, normalizeNeoObj date { neo with close_approach_data := ca :: rest } = some r ∧
        r.close_approach_date = ca.close_approach_date ∧
        r.miss_distance_km = ca.miss_distance_kilometers ∧
        r.relative_velocity_kph = ca.relative_velocity_kilometers_per_hour) ∧
      normalizeNeoObj date { neo with close_approach_data := ca :: rest } =
        normalizeNeoObj date { neo with close_approach_data := ca :: rest' } :=
  ⟨⟨_, rfl, rfl, rfl, rfl⟩, rfl⟩

/-- C10: an object with an empty close-approach array makes the per-object
normalization fail (the index-0 access raises), and any feed containing such
an object normalizes to no data, so totality of the NEO pipeline needs every
object to carry at least one close-approach entry. -/
theorem neo_empty_approach_fails (date : String) (neo : NeoObj)
    (h : neo.close_approach_data = []) :
    normalizeNeoObj date neo = none ∧
      ∀ feed : NeoFeed, (date, neo) ∈ neoEntries feed → neoNormalize feed = none := by
  have hobj : normalizeNeoObj date neo = none := by
    unfold normalizeNeoObj
    rw [h]
  refine ⟨hobj, fun feed hmem => ?_⟩
  exact mapMOpt_none ⟨(date, neo), hmem, hobj⟩

/-- An object with no close-approach entries. -/
def noApproachNeo : NeoObj :=
  { id := "9", name := "d", estimated_diameter_kilometers_min := 1,
    estimated_diameter_kilometers_max := 2,
    is_potentially_hazardous_asteroid := false,
    close_approach_data := [] }

/-- Witness for C10 on a singleton feed holding the approach-free object. -/
theorem neo_empty_approach_fails_witness :
    normalizeNeoObj "2024-01-01" noApproachNeo = none ∧
      neoNormalize { near_earth_objects := [("2024-01-01", [noApproachNeo])] } = none :=
  ⟨(neo_empty_approach_fails "2024-01-01" noApproachNeo rfl).1,
   (neo_empty_approach_fails "2024-01-01" noApproachNeo rfl).2
     { near_earth_objects := [("2024-01-01", [noApproachNeo])] } (by decide)⟩

/-! ## Mars Rover Photos (streamlit_app.py lines 76-115) -/

/-- The camera sub-object of a photo descriptor. -/
structure PhotoCamera where
  name : String
  full_name : String
deriving Repr, DecidableEq

/-- One photo descriptor with the fields the page reads. -/
structure PhotoRecord where
  id : ℤ
  sol : ℤ
  camera : PhotoCamera
  img_src : String
  earth_date : String
  rover_status : String
deriving Repr, DecidableEq

/-- Camera filter (lines 92-93): when the selected camera differs from All,
keep only the photos whose camera name equals the selection; otherwise the
photo list is left as fetched. -/
def filterByCamera (selected_camera : String) (photos : List PhotoRecord) :
    List PhotoRecord :=
  if selected_camera ≠ "All" then
    photos.filter (fun photo => photo.camera.name == selected_camera)
  else photos

/-- C8: filtering with selector All returns the photo sequence unchanged;
any other selector c returns exactly the order-preserving subsequence of
photos whose camera name is c. -/
theorem camera_filter_spec (photos : List PhotoRecord) (c : String) :
    filterByCamera "All" photos = photos ∧
      (c ≠ "All" →
        filterByCamera c photos = photos.filter (fun p => p.camera.name == c) ∧
          List.Sublist (filterByCamera c photos) photos ∧
          ∀ p ∈ filterByCamera c photos, p.camera.name = c) := by
  refine ⟨by simp [filterByCamera], fun hc => ?_⟩
  have he : filterByCamera c photos = photos.filter (fun p => p.camera.name == c) := by
    simp [filterByCamera, hc]
  refine ⟨he, he ▸ List.filter_sublist photos, fun p hp => ?_⟩
  rw [he] at hp
  simpa using (List.mem_filter.mp hp).2

/-- A front-hazard-camera photo used in concrete checks. -/
def fhazPhoto : PhotoRecord :=
  ⟨100, 1000, ⟨"FHAZ", "Front Hazard Avoidance Camera"⟩, "urlA", "2023-01-01", "active"⟩

/-- A navigation-camera photo used in concrete checks. -/
def navPhoto : PhotoRecord :=
  ⟨101, 1000, ⟨"NAVCAM", "Navigation Camera"⟩, "urlB", "2023-01-01", "active"⟩

/-- Witness for C8 on a two-photo list with selectors All and FHAZ. -/
theorem camera_filter_witness :
    filterByCamera "All" [fhazPhoto, navPhoto] = [fhazPhoto, navPhoto] ∧
      filterByCamera "FHAZ" [fhazPhoto, navPhoto] =
        List.filter (fun p => p.camera.name == "FHAZ") [fhazPhoto, navPhoto] :=
  ⟨(camera_filter_spec [fhazPhoto, navPhoto] "FHAZ").1,
   ((camera_filter_spec [fhazPhoto, navPhoto] "FHAZ").2 (by decide)).1⟩

/-- Row grouping of the photo grid (lines 96-99) and of the EPIC timelapse
grid (lines 482-484): the loop for i in range(0, len(photos), cols) with
cols = 3 emits the slice photos[i:i+3] at each step, so it takes three
elements per step in order until the list is exhausted. -/
def gridRows3 : List α → List (List α)
  | [] => []
  | [a] => [[a]]
  | [a, b] => [[a, b]]
  | a :: b :: c :: rest => [a, b, c] :: gridRows3 rest

/-- The recursion above agrees step by step with the slicing loop: each step
emits take 3 and continues on drop 3. -/
theorem gridRows3_eq_slices (xs : List α) :
    gridRows3 xs = if xs.isEmpty then [] else xs.take 3 :: gridRows3 (xs.drop 3) := by
  match xs with
  | [] => rfl
  | [a] => rfl
  | [a, b] => rfl
  | a :: b :: c :: rest => rfl

/-- Induction principle following the three-at-a-time recursion. -/
theorem gridRows3_induction {motive : List α → Prop} (h0 : motive [])
    (h1 : ∀ a, motive [a]) (h2 : ∀ a b, motive [a, b])
    (h3 : ∀ a b c rest, motive rest → motive (a :: b :: c :: rest)) :
    ∀ xs, motive xs
  | [] => h0
  | [a] => h1 a
  | [a, b] => h2 a b
  | a :: b :: c :: rest => h3 a b c rest (gridRows3_induction h0 h1 h2 h3 rest)

/-- C7: grouping a sequence of length L into rows of three yields exactly
the round-up of L/3 groups, every group is non-empty, every group except
possibly the last has exactly three elements, and concatenating the groups
restores the original sequence. -/
theorem grid_rows_of_three (xs : List α) :
    (gridRows3 xs).length = (xs.length + 2) / 3 ∧
      (∀ g ∈ gridRows3 xs, g ≠ []) ∧
      (∀ g ∈ (gridRows3 xs).dropLast, g.length = 3) ∧
      (gridRows3 xs).flatten = xs := by
  induction xs using gridRows3_induction with
  | h0 =>
    exact ⟨by simp [gridRows3], by simp [gridRows3], by simp [gridRows3],
      by simp [gridRows3]⟩
  | h1 a =>
    exact ⟨by simp [gridRows3], by simp [gridRows3], by simp [gridRows3],
      by simp [gridRows3]⟩
  | h2 a b =>
    exact ⟨by simp [gridRows3], by simp [gridRows3], by simp [gridRows3],
      by simp [gridRows3]⟩
  | h3 a b c rest ih =>
    obtain ⟨ihlen, ihne, ihfull, ihflat⟩ := ih
    refine ⟨?_, ?_, ?_, ?_⟩
    · simp only [gridRows3, List.length_cons, ihlen]
      omega
    · intro g hg
      rcases List.mem_cons.mp hg with hg | hg
      · subst hg; simp
      · exact ihne g hg
    · intro g hg
      rcases hgr : gridRows3 rest with _ | ⟨y, ys⟩
      · rw [show gridRows3 (a :: b :: c :: rest) = [[a, b, c]] by
          simp [gridRows3, hgr]] at hg
        simp at hg
      · rw [show gridRows3 (a :: b :: c :: rest) = [a, b, c] :: y :: ys by
          simp [gridRows3, hgr]] at hg
        rw [List.dropLast_cons₂] at hg
        rcases List.mem_cons.mp hg with hg | hg
        · subst hg; rfl
        · exact ihfull g (by rw [hgr]; exact hg)
    · simp [gridRows3, ihflat]

/-- Witness for C7 on a five-element sequence (two rows, the last partial). -/
theorem grid_rows_of_three_witness :
    (gridRows3 [1, 2, 3, 4, 5]).length = (5 + 2) / 3 ∧
      ([1, 2, 3] : List ℕ) ≠ [] ∧ ([1, 2, 3] : List ℕ).length = 3 ∧
      (gridRows3 [1, 2, 3, 4, 5]).flatten = [1, 2, 3, 4, 5] := by
  refine ⟨(grid_rows_of_three [1, 2, 3, 4, 5]).1, ?_, ?_,
    (grid_rows_of_three [1, 2, 3, 4, 5]).2.2.2⟩
  · exact (grid_rows_of_three [1, 2, 3, 4, 5]).2.1 [1, 2, 3] (by decide)
  · exact (grid_rows_of_three [1, 2, 3, 4, 5]).2.2.1 [1, 2, 3] (by decide)

/-! ## Earth Imagery EPIC (streamlit_app.py lines 434-440) -/

/-- Python str.split with the one-character separator given to it at line
435: every occurrence of the separator starts a new group; splitting the
empty string yields one empty group. -/
def splitOnChar (sep : Char) : List Char → List (List Char)
  | [] => [[]]
  | c :: rest =>
    match splitOnChar sep rest with
    | [] => [[]]
    | grp :: grps => if c = sep then [] :: grp :: grps else (c :: grp) :: grps

/-- Python str.replace with the one-character pattern and replacement given
to it at line 435: every occurrence of the pattern character is replaced. -/
def replaceChar (pattern replacement : Char) (s : List Char) : List Char :=
  s.map (fun ch => if ch = pattern then replacement else ch)

/-- URL construction for an EPIC archive image (lines 435-440):
image_date is date.split(" ")[0].replace("-", "/"), and image_url is the
template string interpolating the type selector, the slashed date, the
identifier and the api_key. Python split always returns a non-empty list, so
the [0] access is its head. -/
def image_url (image_type_param descriptor_date identifier api_key : String) :
    String :=
  let image_date : String :=
    ⟨replaceChar '-' '/' ((splitOnChar ' ' descriptor_date.data).headD [])⟩
  "https://api.nasa.gov/EPIC/archive/" ++ image_type_param ++ "/" ++ image_date ++
    "/png/" ++ identifier ++ ".png?api_key=" ++ api_key

/-- C3: for the descriptor with combined timestamp 2023-07-14 00:17:51 and
identifier 20230714001751_01 under type natural, the built URL is exactly
the archive path with slash-delimited zero-padded date segments followed by
the api_key query parameter, whatever the key is. -/
theorem epic_image_url_concrete (api_key : String) :
    image_url "natural" "2023-07-14 00:17:51" "20230714001751_01" api_key =
      "https://api.nasa.gov/EPIC/archive/natural/2023/07/14/png/20230714001751_01.png?api_key="
        ++ api_key := rfl

/-! ## Mars Weather (streamlit_app.py lines 254-326) -/

/-- One sensor aggregate block (AT, PRE or HWS): dict.get yields the
value-absent variant for a missing field. -/
structure SensorData where
  av : Option ℚ
  ct : Option ℚ
  mn : Option ℚ
  mx : Option ℚ
deriving Repr, DecidableEq

/-- The empty-dict default of sol_data.get("AT", \x7b\x7d) and friends
(lines 308-310): every field lookup on it comes back absent. -/
def emptySensor : SensorData := ⟨none, none, none, none⟩

/-- A per-sol data block with the fields the loop reads; the WD block and
validity_checks are never read by the normalization loop and are omitted. -/
structure SolData where
  AT : Option SensorData
  PRE : Option SensorData
  HWS : Option SensorData
  First_UTC : Option String
  Season : Option String
deriving Repr, DecidableEq

/-- The decoded weather payload: the sol_keys array plus the per-sol blocks
keyed by sol identifier (an association list standing for the remaining
top-level dict entries, in insertion order). -/
structure WeatherPayload where
  sol_keys : List String
  sols : List (String × SolData)
deriving Repr, DecidableEq

/-- One row of the weather table (dict row, lines 313-323). -/
structure WeatherRecord where
  sol : ℤ
  earth_date : String
  season : String
  avg_temp : Option ℚ
  min_temp : Option ℚ
  max_temp : Option ℚ
  avg_pressure : Option ℚ
  avg_wind_speed : Option ℚ
  max_wind_speed : Option ℚ
deriving Repr, DecidableEq

/-- Decimal digit run consumed by Python int(): accumulate digits, fail on
the first non-digit character. -/
def pyIntDigits? : List Char → ℕ → Option ℕ
  | [], acc => some acc
  | c :: cs, acc =>
    if c.isDigit then pyIntDigits? cs (10 * acc + (c.toNat - 48)) else none

/-- Python int() on a string (line 314): an optional sign followed by at
least one decimal digit, otherwise ValueError (none). Surrounding whitespace
and digit-grouping underscores accepted by Python are not modelled; the sol
keys this is applied to are plain digit strings. -/
def pyInt? (s : String) : Option ℤ :=
  match s.data with
  | [] => none
  | '-' :: cs => if cs = [] then none else (pyIntDigits? cs 0).map (fun n => -(n : ℤ))
  | '+' :: cs => if cs = [] then none else (pyIntDigits? cs 0).map (fun n => (n : ℤ))
  | cs => (pyIntDigits? cs 0).map (fun n => (n : ℤ))

/-- The row dict built for one present sol (lines 307-323): each measurement
is read with dict.get, so a missing sensor block or missing aggregate field
stays the value-absent variant, never zero. -/
def mkWeatherRow (n : ℤ) (sol_data : SolData) : WeatherRecord :=
  let temp_data := sol_data.AT.getD emptySensor
  let pressure_data := sol_data.PRE.getD emptySensor
  let wind_data := sol_data.HWS.getD emptySensor
  { sol := n
    earth_date := sol_data.First_UTC.getD "Unknown"
    season := sol_data.Season.getD "Unknown"
    avg_temp := temp_data.av
    min_temp := temp_data.mn
    max_temp := temp_data.mx
    avg_pressure := pressure_data.av
    avg_wind_speed := wind_data.av
    max_wind_speed := wind_data.mx }

/-- Body of the sol loop (lines 303-326) at one sol key: a key with no
per-sol block is skipped (inner none, no row); int(sol) raising ValueError
aborts the whole render (outer none); otherwise exactly one row is built. -/
def processSol (payload : WeatherPayload) (sol : String) :
    Option (Option WeatherRecord) :=
  match payload.sols.lookup sol with
  | none => some none
  | some sol_data =>
    match pyInt? sol with
    | none => none
    | some n => some (some (mkWeatherRow n sol_data))

/-- The sol loop (lines 299-326): visit sol_keys in order and concatenate
the rows of the present sols. -/
def weatherRecords (payload : WeatherPayload) : Option (List WeatherRecord) :=
  (mapMOpt (processSol payload) payload.sol_keys).map List.reduceOption

/-- fetch_nasa_data (lines 33-40): the GET and the JSON decoding run inside
a try block whose handler catches every requests.RequestException, reports
it inline and returns None. Its observable result is an optional decoded
payload, and it never lets a request exception escape to its caller. -/
def fetch_nasa_data (upstream : Option α) : Option α :=
  upstream

/-- The static fallback payload written out at lines 272-293: sol_keys 259
to 265 with one populated data block, for sol 259 (the WD block and
validity_checks entries are not read by the sol loop). -/
def fallbackWeather : WeatherPayload :=
  { sol_keys := ["259", "260", "261", "262", "263", "264", "265"],
    sols := [("259",
      { AT := some ⟨some (-(77064/1000)), some 152488, some (-(99429/1000)),
          some (-(13668/1000))⟩,
        PRE := some ⟨some (761006/1000), some 144432, some (7421498/10000),
          some (7803891/10000)⟩,
        HWS := some ⟨some (4563/1000), some 74455, some (156/1000),
          some (17617/1000)⟩,
        First_UTC := some "2019-08-19T08:03:59Z",
        Season := some "winter" })] }

/-- get_mars_weather (lines 256-293): inside try it returns the result of
fetch_nasa_data unchanged; the except branch that would return the fallback
payload can only run if the call raises, and fetch_nasa_data catches request
failures itself and returns None instead of raising, so a failed fetch
propagates as None. -/
def get_mars_weather (upstream : Option WeatherPayload) : Option WeatherPayload :=
  fetch_nasa_data upstream

/-- The Mars-weather page pipeline (lines 295-326): fetch, then build the
rows when a payload with its sol_keys arrived; on None the page renders the
error path with no data. -/
def marsWeatherRecords (upstream : Option WeatherPayload) :
    Option (List WeatherRecord) :=
  match get_mars_weather upstream with
  | none => none
  | some weather_data => weatherRecords weather_data

/-- C1 shows the code contradicts the claim here: when the fetch signals
failure, the pipeline yields no weather records at all, although normalizing
the static fallback payload would have produced a record, because the except
branch guarding the fallback is unreachable. -/
theorem mars_weather_no_fallback_on_fetch_failure :
    marsWeatherRecords none = none ∧
      (weatherRecords fallbackWeather).map List.length = some 1 :=
  ⟨rfl, by decide⟩

/-- Helper: a successful mapMOpt yields one output per input. -/
theorem mapMOpt_length (f : α → Option β) :
    ∀ (xs : List α) (l : List β), mapMOpt f xs = some l → l.length = xs.length := by
  intro xs
  induction xs with
  | nil =>
    intro l h
    simp only [mapMOpt, Option.some.injEq] at h
    simp [← h]
  | cons x xs ih =>
    intro l h
    unfold mapMOpt at h
    rcases hfx : f x with _ | y <;> rw [hfx] at h
    · simp at h
    · rcases hm : mapMOpt f xs with _ | ys <;> rw [hm] at h
      · simp at h
      · simp only [Option.some.injEq] at h
        simp [← h, ih ys hm]

/-- C4: a sol identifier listed in sol_keys with no per-sol data block is
skipped rather than emitted, so a completed run produces at most one record
per sol key. -/
theorem weather_skips_absent_sols (payload : WeatherPayload)
    (records : List WeatherRecord) (h : weatherRecords payload = some records) :
    records.length ≤ payload.sol_keys.length ∧
      ∀ sol, payload.sols.lookup sol = none → processSol payload sol = some none := by
  unfold weatherRecords at h
  rcases hm : mapMOpt (processSol payload) payload.sol_keys with _ | l <;> rw [hm] at h
  · simp at h
  · simp only [Option.map_some', Option.some.injEq] at h
    refine ⟨?_, fun sol hsol => by simp [processSol, hsol]⟩
    calc records.length = l.reduceOption.length := by rw [← h]
      _ ≤ l.length := List.reduceOption_length_le l
      _ = payload.sol_keys.length := mapMOpt_length _ _ _ hm

/-- A sol block with the wind sensor missing, used in concrete checks. -/
def exampleSolData : SolData :=
  { AT := some ⟨some (-77), some 152488, some (-99), some (-13)⟩,
    PRE := some ⟨some 761, some 144432, some 742, some 780⟩,
    HWS := none,
    First_UTC := some "2019-08-19T08:03:59Z",
    Season := some "winter" }

/-- A payload listing two sol keys of which only 259 has a data block. -/
def exampleWeatherPayload : WeatherPayload :=
  { sol_keys := ["259", "300"], sols := [("259", exampleSolData)] }

/-- Witness for C4: one record from two sol keys, and the absent sol 300 is
skipped. -/
theorem weather_skips_absent_sols_witness :
    ([mkWeatherRow 259 exampleSolData]).length ≤ exampleWeatherPayload.sol_keys.length ∧
      processSol exampleWeatherPayload "300" = some none :=
  ⟨(weather_skips_absent_sols exampleWeatherPayload [mkWeatherRow 259 exampleSolData]
      (by decide)).1,
   (weather_skips_absent_sols exampleWeatherPayload [mkWeatherRow 259 exampleSolData]
      (by decide)).2 "300" (by decide)⟩

/-- C9: at a sol present as a data block, the loop still emits exactly one
record, and a missing sensor block leaves every aggregate drawn from it as
the value-absent variant rather than zero or a dropped record. -/
theorem weather_missing_sensor_no_value (payload : WeatherPayload) (sol : String)
    (sol_data : SolData) (n : ℤ)
    (hlook : payload.sols.lookup sol = some sol_data)
    (hint : pyInt? sol = some n) :
    processSol payload sol = some (some (mkWeatherRow n sol_data)) ∧
      (sol_data.AT = none → (mkWeatherRow n sol_data).avg_temp = none ∧
        (mkWeatherRow n sol_data).min_temp = none ∧
        (mkWeatherRow n sol_data).max_temp = none) ∧
      (sol_data.PRE = none → (mkWeatherRow n sol_data).avg_pressure = none) ∧
      (sol_data.HWS = none → (mkWeatherRow n sol_data).avg_wind_speed = none ∧
        (mkWeatherRow n sol_data).max_wind_speed = none) := by
  refine ⟨by simp [processSol, hlook, hint], fun hAT => ?_, fun hPRE => ?_, fun hHWS => ?_⟩
  · simp [mkWeatherRow, hAT, emptySensor]
  · simp [mkWeatherRow, hPRE, emptySensor]
  · simp [mkWeatherRow, hHWS, emptySensor]

/-- Witness for C9 at sol 259 of the concrete payload, whose wind block is
missing: the record is emitted and both wind fields are absent. -/
theorem weather_missing_sensor_witness :
    processSol exampleWeatherPayload "259" = some (some (mkWeatherRow 259 exampleSolData)) ∧
      (mkWeatherRow 259 exampleSolData).avg_wind_speed = none ∧
      (mkWeatherRow 259 exampleSolData).max_wind_speed = none := by
  obtain ⟨h1, -, -, h3⟩ := weather_missing_sensor_no_value exampleWeatherPayload "259"
    exampleSolData 259 (by decide) (by decide)
  exact ⟨h1, (h3 rfl).1, (h3 rfl).2⟩

end NasaApp
